import Mathlib

/-!
Verification of the rust-lcd backlight library (src/lib.rs) against its
specification.

Shallow embedding conventions:
* Filesystem paths are lists of path segments; `Path::join` with a file
  name appends one segment.
* The filesystem is explicit state: a finite association list from paths
  to per-file read outcomes (a regular file may exist yet fail to read,
  e.g. with a permission error), a list of paths on which writes are
  denied, and an association list from directory paths to the outcome of
  opening them, each listing being a list of per-entry outcomes (mirroring
  `fs::ReadDir`, whose items are `io::Result<DirEntry>`).
* `io::Error` is modelled by its kind plus a message carrying the cause;
  fallible operations return `Except IOError`.
* Machine integer `i32` is modelled as `Int` with the parser enforcing the
  `i32` range, exactly as `str::parse::<i32>` does.
-/

/-- A filesystem path, as a list of path segments. -/
abbrev FsPath := List String

/-- The default directory where to look for devices (`"/sys/class/backlight"`). -/
def BACKLIGHT_PATH : FsPath := ["sys", "class", "backlight"]

/-- The default name of the file controlling the power of the device. -/
def BL_POWER : String := "bl_power"

/-- The kinds of `io::ErrorKind` relevant to this library; every other kind
is collapsed into `other`. -/
inductive ErrorKind where
  | notFound
  | permissionDenied
  | invalidData
  | other
deriving DecidableEq

/-- Model of `std::io::Error`: a kind together with a message carrying the
underlying cause. -/
structure IOError where
  kind : ErrorKind
  msg : String
deriving DecidableEq

instance {ε α : Type} [DecidableEq ε] [DecidableEq α] : DecidableEq (Except ε α) := fun x y =>
  match x, y with
  | Except.error a, Except.error b => decidable_of_iff (a = b) (by simp)
  | Except.error _, Except.ok _ => isFalse (by simp)
  | Except.ok _, Except.error _ => isFalse (by simp)
  | Except.ok a, Except.ok b => decidable_of_iff (a = b) (by simp)

/-- The error built by `read_i32` on parse failure:
`io::Error::new(io::ErrorKind::InvalidData, "cannot parse i32")`. -/
def malformedError : IOError := ⟨.invalidData, "cannot parse i32"⟩

/-- Association-list lookup (paths have decidable equality). -/
def alookup {α β : Type} [DecidableEq α] (k : α) : List (α × β) → Option β
  | [] => none
  | (k2, v) :: rest => if k2 = k then some v else alookup k rest

/-- Association-list update: replace the binding of `k`, or append it. -/
def aupdate {α β : Type} [DecidableEq α] (k : α) (v : β) : List (α × β) → List (α × β)
  | [] => [(k, v)]
  | (k2, v2) :: rest => if k2 = k then (k, v) :: rest else (k2, v2) :: aupdate k v rest

/-- The filesystem state. `files` maps each existing regular file to the
outcome of reading it; `writeDenied` lists files that reject writes;
`dirs` maps each directory to the outcome of opening it for listing. -/
structure Fs where
  files : List (FsPath × Except IOError String)
  writeDenied : List FsPath
  dirs : List (FsPath × Except IOError (List (Except IOError String)))
deriving DecidableEq

/-- `fs::read_to_string`: read outcome of an existing file, or a
not-found I/O error. -/
def Fs.readToString (fs : Fs) (p : FsPath) : Except IOError String :=
  match alookup p fs.files with
  | some r => r
  | none => .error ⟨.notFound, "No such file or directory"⟩

/-- `Path::is_file`: the path refers to an existing regular file. -/
def Fs.isFile (fs : Fs) (p : FsPath) : Bool :=
  (alookup p fs.files).isSome

/-- Replace the entire contents of `p` with `content` (creating it if
absent), as a successful `fs::write` does. -/
def Fs.setFile (fs : Fs) (p : FsPath) (content : String) : Fs :=
  { fs with files := aupdate p (Except.ok content) fs.files }

/-- `fs::write`: fails with a permission I/O error on write-denied paths,
otherwise replaces the file contents. -/
def Fs.write (fs : Fs) (p : FsPath) (content : String) : Except IOError Fs :=
  if p ∈ fs.writeDenied then .error ⟨.permissionDenied, "Permission denied"⟩
  else .ok (fs.setFile p content)

/-- `fs::read_dir`: outcome of opening a directory listing, or a
not-found I/O error if the directory does not exist. -/
def Fs.readDir (fs : Fs) (p : FsPath) : Except IOError (List (Except IOError String)) :=
  match alookup p fs.dirs with
  | some r => r
  | none => .error ⟨.notFound, "No such file or directory"⟩

/-- `char::to_digit(10)`: the value of a decimal ASCII digit. -/
def digitVal (c : Char) : Option Nat :=
  if ('0' ≤ c) ∧ (c ≤ '9') then some (c.toNat - '0'.toNat) else none

/-- Digit-accumulation loop of `i32::from_str` (unbounded accumulator;
the range check is applied afterwards, which is extensionally equal to
Rust's per-step checked arithmetic since the magnitude only grows). -/
def parseNatAux : List Char → Nat → Option Nat
  | [], acc => some acc
  | c :: rest, acc =>
    match digitVal c with
    | some d => parseNatAux rest (acc * 10 + d)
    | none => none

/-- Parse a non-empty, all-digits string to a natural number; the empty
string fails, as in `i32::from_str`. -/
def parseNat : List Char → Option Nat
  | [] => none
  | cs => parseNatAux cs 0

/-- Sign handling of `i32::from_str`: an optional leading `+` or `-`. -/
def parseSign : List Char → Bool × List Char
  | '-' :: rest => (true, rest)
  | '+' :: rest => (false, rest)
  | cs => (false, cs)

/-- `i32::MAX`. -/
def I32_MAX : Nat := 2147483647

/-- The absolute value of `i32::MIN`. -/
def I32_MIN_ABS : Nat := 2147483648

/-- Body of `i32::from_str` after the sign has been split off: parse the
digits and require the signed value to fit in the `i32` range. -/
def parseI32Core (neg : Bool) (digits : List Char) : Option Int :=
  match parseNat digits with
  | none => none
  | some n =>
    if neg then
      if n ≤ I32_MIN_ABS then some (-(n : Int)) else none
    else
      if n ≤ I32_MAX then some ((n : Int)) else none

/-- `str::parse::<i32>`: optional sign, one or more decimal digits, and the
value must fit in the `i32` range. -/
def parseI32 (cs : List Char) : Option Int :=
  parseI32Core (parseSign cs).1 (parseSign cs).2

/-- The grammar of `parseI32Core` with no range restriction. -/
def parseIntUnboundedCore (neg : Bool) (digits : List Char) : Option Int :=
  match parseNat digits with
  | none => none
  | some n => some (if neg then -(n : Int) else (n : Int))

/-- The same grammar as `parseI32` with no range restriction: a well-formed
decimal signed integer in the unbounded sense. -/
def parseIntUnbounded (cs : List Char) : Option Int :=
  parseIntUnboundedCore (parseSign cs).1 (parseSign cs).2

/-- `char::is_whitespace`: the Unicode White_Space property. -/
def isRustWhitespace (c : Char) : Bool :=
  (9 ≤ c.toNat ∧ c.toNat ≤ 13) ∨ c.toNat = 32 ∨ c.toNat = 0x85 ∨ c.toNat = 0xA0 ∨
    c.toNat = 0x1680 ∨ (0x2000 ≤ c.toNat ∧ c.toNat ≤ 0x200A) ∨ c.toNat = 0x2028 ∨
    c.toNat = 0x2029 ∨ c.toNat = 0x202F ∨ c.toNat = 0x205F ∨ c.toNat = 0x3000

/-- `str::trim`: drop leading and trailing whitespace characters. -/
def trimChars (s : List Char) : List Char :=
  ((s.dropWhile isRustWhitespace).reverse.dropWhile isRustWhitespace).reverse

/-- A single backlight device: its directory path and the derived path of
its power-control file, both fixed at construction. -/
structure Device where
  path : FsPath
  bl_power : FsPath
deriving DecidableEq

/-- `Device::new`: a device located at `path`, with the power-control path
derived by joining the default control-file name. -/
def Device.new (path : FsPath) : Device :=
  { path := path, bl_power := path ++ [BL_POWER] }

/-- `Device::custom`: a device at `path` with an optional override of the
control-file path joined to `path` (defaulting to `BL_POWER`). -/
def Device.custom (path : FsPath) (bl_power : Option FsPath) : Device :=
  match bl_power with
  | some q => { path := path, bl_power := path ++ q }
  | none => { path := path, bl_power := path ++ [BL_POWER] }

/-- Helper `bl_power(path)`: the candidate control-file path of a device
directory. -/
def bl_power (path : FsPath) : FsPath := path ++ [BL_POWER]

/-- `read_i32`: read the file as text, trim whitespace, parse as `i32`;
a parse failure is replaced by the `InvalidData` error `malformedError`,
while a read failure propagates the underlying I/O error. -/
def read_i32 (fs : Fs) (p : FsPath) : Except IOError Int :=
  match fs.readToString p with
  | .error e => .error e
  | .ok s =>
    match parseI32 (trimChars s.data) with
    | some n => .ok n
    | none => .error malformedError

/-- `write_i32`: write the decimal string representation of `value`. -/
def write_i32 (fs : Fs) (p : FsPath) (value : Int) : Except IOError Fs :=
  fs.write p (toString value)

/-- `Device::toggle`: read and parse the control file, flip the value
(`0 ↦ 1`, nonzero `↦ 0`), write it back, and return the new value.
The filesystem state is threaded explicitly; on failure it is returned
unchanged (the source returns early before any write). -/
def Device.toggle (fs : Fs) (d : Device) : Except IOError Int × Fs :=
  match read_i32 fs d.bl_power with
  | .error e => (.error e, fs)
  | .ok old_value =>
    let new_value : Int := if old_value = 0 then 1 else 0
    match write_i32 fs d.bl_power new_value with
    | .error e => (.error e, fs)
    | .ok fs2 => (.ok new_value, fs2)

/-- The filtering-and-mapping pipeline shared by `iterate_devices` and
`DeviceIter::next`: keep the `Ok` entries, take their paths under `dir`,
keep those whose `bl_power` path is a regular file, and build `Device`s.
(`filterMap Except.toOption` is `filter(is_ok)` followed by `unwrap`.) -/
def devicesFromEntries (fs : Fs) (dir : FsPath) (entries : List (Except IOError String)) :
    List Device :=
  (((entries.filterMap Except.toOption).map (fun name => dir ++ [name])).filter
      (fun p => fs.isFile (bl_power p))).map (fun p => Device.new p)

/-- `iterate_devices`: open the directory (propagating the I/O error on
failure) and return the devices found in it. -/
def iterate_devices (fs : Fs) (dir : FsPath) : Except IOError (List Device) :=
  match fs.readDir dir with
  | .error e => .error e
  | .ok entries => .ok (devicesFromEntries fs dir entries)

/-- `DeviceIter`: an optional open directory listing (the directory path
plus the remaining entries); `none` if the directory could not be opened. -/
structure DeviceIter where
  readdir : Option (FsPath × List (Except IOError String))
deriving DecidableEq

/-- `DeviceIter::new`: never fails; a failed `read_dir` leaves the handle
absent. -/
def DeviceIter.new (fs : Fs) (path : FsPath) : DeviceIter :=
  match fs.readDir path with
  | .ok entries => ⟨some (path, entries)⟩
  | .error _ => ⟨none⟩

/-- The entry-consuming search inside `DeviceIter::next`: skip `Err`
entries and entries without a control file until a qualifying entry is
found, returning the device and the unconsumed rest. -/
def findDevice (fs : Fs) (dir : FsPath) :
    List (Except IOError String) → Option (Device × List (Except IOError String))
  | [] => none
  | .error _ :: rest => findDevice fs dir rest
  | .ok name :: rest =>
    if fs.isFile (bl_power (dir ++ [name])) then some (Device.new (dir ++ [name]), rest)
    else findDevice fs dir rest

/-- `DeviceIter::next`: `none` when the handle is absent; otherwise consume
entries up to the first qualifying one. -/
def DeviceIter.next (fs : Fs) (it : DeviceIter) : Option Device × DeviceIter :=
  match it.readdir with
  | some (dir, entries) =>
    match findDevice fs dir entries with
    | some (d, rest) => (some d, ⟨some (dir, rest)⟩)
    | none => (none, ⟨some (dir, [])⟩)
  | none => (none, it)

/-! ## Concrete fixtures: small filesystems and devices used as witnesses -/

/-- A concrete device directory. -/
def wDev : Device := Device.new ["sys", "class", "backlight", "acpi0"]

/-- A filesystem whose control file holds `"5"`. -/
def wFs : Fs :=
  { files := [(bl_power ["sys", "class", "backlight", "acpi0"], .ok "5")],
    writeDenied := [], dirs := [] }

/-- A filesystem whose control file holds `"0"`. -/
def fsZero : Fs :=
  { files := [(bl_power ["sys", "class", "backlight", "acpi0"], .ok "0")],
    writeDenied := [], dirs := [] }

/-- A filesystem whose control file holds the unparseable text `"abc"`. -/
def fsAbc : Fs :=
  { files := [(bl_power ["sys", "class", "backlight", "acpi0"], .ok "abc")],
    writeDenied := [], dirs := [] }

/-- A filesystem whose control file holds `"  1 \n"`. -/
def fsWs : Fs :=
  { files := [(bl_power ["sys", "class", "backlight", "acpi0"], .ok "  1 \n")],
    writeDenied := [], dirs := [] }

/-- A filesystem whose control file holds `"2147483648"`, one past `i32::MAX`. -/
def fsBig : Fs :=
  { files := [(bl_power ["sys", "class", "backlight", "acpi0"], .ok "2147483648")],
    writeDenied := [], dirs := [] }

/-- A control-file path present in none of the fixture filesystems. -/
def pMissing : FsPath := ["sys", "class", "backlight", "gone", "bl_power"]

/-- The not-found I/O error produced by the filesystem model. -/
def notFoundError : IOError := ⟨.notFound, "No such file or directory"⟩

/-- The permission-denied I/O error produced by the filesystem model. -/
def permError : IOError := ⟨.permissionDenied, "Permission denied"⟩

/-- An entirely empty filesystem. -/
def fsEmpty : Fs := { files := [], writeDenied := [], dirs := [] }

/-- Root-listing entries in a scrambled order: `devC` first. -/
def entriesW : List (Except IOError String) :=
  [Except.ok "devC", Except.ok "devA", Except.ok "devB"]

/-- A root with three subdirectories of which only `devA` and `devB` contain
the control file. -/
def fsEnum : Fs :=
  { files := [(bl_power ["sys", "class", "backlight", "devA"], .ok "0"),
              (bl_power ["sys", "class", "backlight", "devB"], .ok "1")],
    writeDenied := [],
    dirs := [(BACKLIGHT_PATH, .ok entriesW)] }

/-! ## Helper lemmas -/

theorem alookup_aupdate_self {α β : Type} [DecidableEq α] (k : α) (v : β)
    (l : List (α × β)) : alookup k (aupdate k v l) = some v := by
  induction l with
  | nil => simp [aupdate, alookup]
  | cons kv rest ih =>
    obtain ⟨k2, v2⟩ := kv
    by_cases h : k2 = k
    · simp [aupdate, h, alookup]
    · simp [aupdate, h, alookup, ih]

theorem Fs.readToString_setFile (fs : Fs) (p : FsPath) (c : String) :
    (fs.setFile p c).readToString p = .ok c := by
  simp [Fs.setFile, Fs.readToString, alookup_aupdate_self]

theorem Fs.writeDenied_setFile (fs : Fs) (p : FsPath) (c : String) :
    (fs.setFile p c).writeDenied = fs.writeDenied := rfl

theorem Fs.write_ok (fs : Fs) (p : FsPath) (c : String) (h : p ∉ fs.writeDenied) :
    fs.write p c = .ok (fs.setFile p c) := by
  simp [Fs.write, h]

theorem read_i32_of_ok (fs : Fs) (p : FsPath) (s : String) (n : Int)
    (hr : fs.readToString p = .ok s) (hp : parseI32 (trimChars s.data) = some n) :
    read_i32 fs p = .ok n := by
  simp [read_i32, hr, hp]

theorem read_i32_malformed (fs : Fs) (p : FsPath) (s : String)
    (hr : fs.readToString p = .ok s) (hp : parseI32 (trimChars s.data) = none) :
    read_i32 fs p = .error malformedError := by
  simp [read_i32, hr, hp]

theorem read_i32_ioerr (fs : Fs) (p : FsPath) (e : IOError)
    (hr : fs.readToString p = .error e) : read_i32 fs p = .error e := by
  simp [read_i32, hr]

theorem toggle_of_read_ok (fs : Fs) (d : Device) (n : Int)
    (hr : read_i32 fs d.bl_power = .ok n) (hw : d.bl_power ∉ fs.writeDenied) :
    Device.toggle fs d =
      (.ok (if n = 0 then 1 else 0),
        fs.setFile d.bl_power (toString (if n = 0 then (1 : Int) else 0))) := by
  simp [Device.toggle, hr, write_i32, Fs.write, hw]

theorem Device.new_inj {p q : FsPath} (h : Device.new p = Device.new q) : p = q :=
  congrArg Device.path h

/-! ## The claims -/

/-- Claim C1: for every integer value `n` successfully read and parsed from a
device's control file, toggle computes the new value `1` if `n = 0` and `0`
if `n ≠ 0`, writes its decimal representation to the control file, and
returns that new value on success. -/
theorem toggle_flips_parsed_value (fs : Fs) (d : Device) (n : Int)
    (hr : read_i32 fs d.bl_power = .ok n)
    (hw : d.bl_power ∉ fs.writeDenied) :
    Device.toggle fs d =
      (.ok (if n = 0 then 1 else 0),
        fs.setFile d.bl_power (toString (if n = 0 then (1 : Int) else 0))) ∧
    (fs.setFile d.bl_power (toString (if n = 0 then (1 : Int) else 0))).readToString
        d.bl_power = .ok (toString (if n = 0 then (1 : Int) else 0)) :=
  ⟨toggle_of_read_ok fs d n hr hw, Fs.readToString_setFile fs d.bl_power _⟩

/-- Witness for C1 at the concrete state whose control file holds `"5"`. -/
theorem toggle_flips_parsed_value_witness :
    Device.toggle wFs wDev =
      (.ok (if (5 : Int) = 0 then 1 else 0),
        wFs.setFile wDev.bl_power (toString (if (5 : Int) = 0 then (1 : Int) else 0))) ∧
    (wFs.setFile wDev.bl_power (toString (if (5 : Int) = 0 then (1 : Int) else 0))).readToString
        wDev.bl_power = .ok (toString (if (5 : Int) = 0 then (1 : Int) else 0)) :=
  toggle_flips_parsed_value wFs wDev 5 (by decide) (by decide)

/-- Claim C10: if reading or parsing the control file fails, toggle performs
no write at all: it returns the error and leaves the filesystem state, hence
the control file's content, exactly as it was. -/
theorem toggle_no_write_on_read_error (fs : Fs) (d : Device) (e : IOError)
    (h : read_i32 fs d.bl_power = .error e) :
    Device.toggle fs d = (.error e, fs) := by
  simp [Device.toggle, h]

/-- Witness for C10 at the concrete state whose control file holds `"abc"`. -/
theorem toggle_no_write_on_read_error_witness :
    Device.toggle fsAbc wDev = (.error malformedError, fsAbc) :=
  toggle_no_write_on_read_error fsAbc wDev malformedError (by decide)

/-- Claim C2: readable-but-unparseable content fails with the Malformed Data
error (kind `InvalidData`, as for content `"abc"`); a read failure propagates
the underlying I/O error unchanged; and the two are distinguishable: an I/O
error such as file-missing (`notFound`) or permission-denied differs from the
malformed-data error. -/
theorem read_i32_error_taxonomy (fs : Fs) (p : FsPath) :
    (∀ s, fs.readToString p = .ok s → parseI32 (trimChars s.data) = none →
      read_i32 fs p = .error malformedError ∧ malformedError.kind = .invalidData) ∧
    (∀ e, fs.readToString p = .error e → read_i32 fs p = .error e) ∧
    (∀ e : IOError, e.kind = .notFound ∨ e.kind = .permissionDenied →
      e ≠ malformedError) := by
  refine ⟨fun s h1 h2 => ⟨read_i32_malformed fs p s h1 h2, rfl⟩,
    fun e h1 => read_i32_ioerr fs p e h1, fun e hk heq => ?_⟩
  rcases hk with hk | hk <;> rw [heq] at hk <;> simp [malformedError] at hk

/-- Witness for C2: content `"abc"` gives the malformed-data error, while a
missing file gives the distinct not-found I/O error. -/
theorem read_i32_error_taxonomy_witness :
    (read_i32 fsAbc wDev.bl_power = .error malformedError ∧
      malformedError.kind = .invalidData) ∧
    read_i32 fsAbc pMissing = .error notFoundError ∧
    notFoundError ≠ malformedError :=
  ⟨(read_i32_error_taxonomy fsAbc wDev.bl_power).1 "abc" (by decide) (by decide),
    (read_i32_error_taxonomy fsAbc pMissing).2.1 notFoundError (by decide),
    (read_i32_error_taxonomy fsAbc pMissing).2.2 notFoundError (Or.inl (by decide))⟩

/-- Claim C3: on an unopenable root the eager form `iterate_devices` returns
the I/O error immediately, while `DeviceIter::new` never fails at
construction: it yields the absent-handle iterator, whose `next` returns no
device and no error and leaves the iterator unchanged. -/
theorem discovery_forms_on_unopenable_root (fs : Fs) (root : FsPath) (e : IOError)
    (h : fs.readDir root = .error e) :
    iterate_devices fs root = .error e ∧
    DeviceIter.new fs root = ⟨none⟩ ∧
    DeviceIter.next fs ⟨none⟩ = (none, ⟨none⟩) := by
  refine ⟨by simp [iterate_devices, h], by simp [DeviceIter.new, h], rfl⟩

/-- Witness for C3 on the empty filesystem, whose root does not exist. -/
theorem discovery_forms_on_unopenable_root_witness :
    iterate_devices fsEmpty BACKLIGHT_PATH = .error notFoundError ∧
    DeviceIter.new fsEmpty BACKLIGHT_PATH = ⟨none⟩ ∧
    DeviceIter.next fsEmpty ⟨none⟩ = (none, ⟨none⟩) :=
  discovery_forms_on_unopenable_root fsEmpty BACKLIGHT_PATH notFoundError (by decide)

/-- Claim C5: toggle is an involution under ideal filesystem conditions:
from a control file containing `"0"`, the first toggle returns `1` and
leaves the file containing `"1"`, and the second toggle returns `0` and
leaves the file containing `"0"` again. -/
theorem toggle_involution_from_zero (fs : Fs) (d : Device)
    (h0 : fs.readToString d.bl_power = .ok "0")
    (hw : d.bl_power ∉ fs.writeDenied) :
    Device.toggle fs d = (.ok 1, fs.setFile d.bl_power "1") ∧
    (fs.setFile d.bl_power "1").readToString d.bl_power = .ok "1" ∧
    Device.toggle (fs.setFile d.bl_power "1") d =
      (.ok 0, (fs.setFile d.bl_power "1").setFile d.bl_power "0") ∧
    ((fs.setFile d.bl_power "1").setFile d.bl_power "0").readToString d.bl_power
      = .ok "0" := by
  have e1 : toString (1 : Int) = "1" := rfl
  have e0 : toString (0 : Int) = "0" := rfl
  have hr1 : read_i32 fs d.bl_power = .ok 0 :=
    read_i32_of_ok fs d.bl_power "0" 0 h0 (by decide)
  have t1 := toggle_of_read_ok fs d 0 hr1 hw
  simp only [if_pos rfl, e1] at t1
  have hr2 : read_i32 (fs.setFile d.bl_power "1") d.bl_power = .ok 1 :=
    read_i32_of_ok _ d.bl_power "1" 1
      (Fs.readToString_setFile fs d.bl_power "1") (by decide)
  have hw2 : d.bl_power ∉ (fs.setFile d.bl_power "1").writeDenied := hw
  have t2 := toggle_of_read_ok (fs.setFile d.bl_power "1") d 1 hr2 hw2
  simp only [if_neg (by decide : ¬ ((1 : Int) = 0)), e0] at t2
  exact ⟨t1, Fs.readToString_setFile fs d.bl_power "1", t2,
    Fs.readToString_setFile _ d.bl_power "0"⟩

/-- Witness for C5 at the concrete state whose control file holds `"0"`. -/
theorem toggle_involution_from_zero_witness :
    Device.toggle fsZero wDev = (.ok 1, fsZero.setFile wDev.bl_power "1") ∧
    (fsZero.setFile wDev.bl_power "1").readToString wDev.bl_power = .ok "1" ∧
    Device.toggle (fsZero.setFile wDev.bl_power "1") wDev =
      (.ok 0, (fsZero.setFile wDev.bl_power "1").setFile wDev.bl_power "0") ∧
    ((fsZero.setFile wDev.bl_power "1").setFile wDev.bl_power "0").readToString
      wDev.bl_power = .ok "0" :=
  toggle_involution_from_zero fsZero wDev (by decide) (by decide)

/-- Claim C6: construction is pure and total: `Device::new p` records the
device path `p` and derives the control path `p ++ [BL_POWER]`;
`Device::custom` with no override agrees with `Device::new`, and with an
override name `q` derives `p ++ [q]`; in each case the control path is the
device path plus exactly one segment, fixed at construction (the
constructors take no filesystem state and always succeed). -/
theorem device_construction_paths (p : FsPath) (q : String) :
    (Device.new p).path = p ∧
    (Device.new p).bl_power = p ++ [BL_POWER] ∧
    Device.custom p none = Device.new p ∧
    (Device.custom p (some [q])).path = p ∧
    (Device.custom p (some [q])).bl_power = p ++ [q] ∧
    (Device.new p).bl_power.length = p.length + 1 ∧
    (Device.custom p (some [q])).bl_power.length = p.length + 1 := by
  simp [Device.new, Device.custom]

/-- Claim C7: with the root listing open, enumeration never surfaces an
error; a per-entry error anywhere in the listing is silently skipped, leaving
the enumeration result unchanged; and the lazy iterator likewise skips an
errored entry. -/
theorem entry_errors_silently_skipped (fs : Fs) (root : FsPath)
    (entries l1 l2 : List (Except IOError String)) (e : IOError)
    (h : fs.readDir root = .ok entries) :
    iterate_devices fs root = .ok (devicesFromEntries fs root entries) ∧
    devicesFromEntries fs root (l1 ++ Except.error e :: l2) =
      devicesFromEntries fs root (l1 ++ l2) ∧
    DeviceIter.next fs ⟨some (root, Except.error e :: l2)⟩ =
      DeviceIter.next fs ⟨some (root, l2)⟩ := by
  refine ⟨by simp [iterate_devices, h], ?_, ?_⟩
  · simp [devicesFromEntries, List.filterMap_append, List.filterMap_cons, Except.toOption]
  · simp [DeviceIter.next, findDevice]

/-- Claim C8: reading trims surrounding whitespace before parsing: control
content `"  1 \n"` trims to `"1"` and is successfully parsed, yielding `1`. -/
theorem whitespace_trimmed_before_parse (fs : Fs) (p : FsPath)
    (h : fs.readToString p = .ok "  1 \n") :
    trimChars "  1 \n".data = "1".data ∧ read_i32 fs p = .ok 1 :=
  ⟨by decide, read_i32_of_ok fs p "  1 \n" 1 h (by decide)⟩

/-- Witness for C8 at the concrete state whose control file holds `"  1 \n"`. -/
theorem whitespace_trimmed_before_parse_witness :
    trimChars "  1 \n".data = "1".data ∧ read_i32 fsWs wDev.bl_power = .ok 1 :=
  whitespace_trimmed_before_parse fsWs wDev.bl_power (by decide)

/-- Witness for C7: a permission-denied entry in the middle of the listing
changes neither the enumeration result nor the iterator's behaviour. -/
theorem entry_errors_silently_skipped_witness :
    iterate_devices fsEnum BACKLIGHT_PATH =
      .ok (devicesFromEntries fsEnum BACKLIGHT_PATH entriesW) ∧
    devicesFromEntries fsEnum BACKLIGHT_PATH
        ([Except.ok "devA"] ++ Except.error permError :: [Except.ok "devB"]) =
      devicesFromEntries fsEnum BACKLIGHT_PATH ([Except.ok "devA"] ++ [Except.ok "devB"]) ∧
    DeviceIter.next fsEnum ⟨some (BACKLIGHT_PATH, Except.error permError :: [Except.ok "devB"])⟩ =
      DeviceIter.next fsEnum ⟨some (BACKLIGHT_PATH, [Except.ok "devB"])⟩ :=
  entry_errors_silently_skipped fsEnum BACKLIGHT_PATH entriesW
    [Except.ok "devA"] [Except.ok "devB"] permError (by decide)

/-- Claim C4: with the root listing open, enumeration succeeds; a directory
entry is yielded as a `Device` if and only if the entry's path joined with
the control-file name is an existing regular file; consequently a root whose
listing is, in any order, three subdirectory entries of which exactly two
contain the control file yields exactly two devices. -/
theorem enumeration_filters_by_control_file (fs : Fs) (root : FsPath)
    (entries : List (Except IOError String))
    (h : fs.readDir root = .ok entries) :
    iterate_devices fs root = .ok (devicesFromEntries fs root entries) ∧
    (∀ name, Except.ok name ∈ entries →
      (Device.new (root ++ [name]) ∈ devicesFromEntries fs root entries ↔
        fs.isFile (bl_power (root ++ [name])) = true)) ∧
    (∀ a b c, List.Perm entries [Except.ok a, Except.ok b, Except.ok c] →
      fs.isFile (bl_power (root ++ [a])) = true →
      fs.isFile (bl_power (root ++ [b])) = true →
      fs.isFile (bl_power (root ++ [c])) = false →
      (devicesFromEntries fs root entries).length = 2) := by
  refine ⟨by simp [iterate_devices, h], ?_, ?_⟩
  · intro name hmem
    constructor
    · intro hd
      simp only [devicesFromEntries, List.mem_map] at hd
      obtain ⟨p, hp, hpe⟩ := hd
      have hpp : p = root ++ [name] := Device.new_inj hpe
      subst hpp
      simpa using List.of_mem_filter hp
    · intro hfile
      simp only [devicesFromEntries]
      apply List.mem_map.mpr
      refine ⟨root ++ [name], ?_, rfl⟩
      apply List.mem_filter.mpr
      refine ⟨?_, by simpa using hfile⟩
      apply List.mem_map.mpr
      refine ⟨name, ?_, rfl⟩
      exact List.mem_filterMap.mpr ⟨Except.ok name, hmem, rfl⟩
  · intro a b c hperm ha hb hc
    have hfm : List.Perm (entries.filterMap Except.toOption) [a, b, c] := by
      have h2 := hperm.filterMap Except.toOption
      simpa [Except.toOption] using h2
    have hmap := hfm.map (fun name => root ++ [name])
    have hfil := hmap.filter (fun p => fs.isFile (bl_power p))
    have hlen := hfil.length_eq
    simp only [devicesFromEntries, List.length_map]
    rw [hlen]
    simp [List.filter, ha, hb, hc]

/-- Witness for C4 on the three-subdirectory fixture, with the listing in a
scrambled order. -/
theorem enumeration_filters_by_control_file_witness :
    iterate_devices fsEnum BACKLIGHT_PATH =
      .ok (devicesFromEntries fsEnum BACKLIGHT_PATH entriesW) ∧
    (Device.new (BACKLIGHT_PATH ++ ["devA"]) ∈
        devicesFromEntries fsEnum BACKLIGHT_PATH entriesW ↔
      fsEnum.isFile (bl_power (BACKLIGHT_PATH ++ ["devA"])) = true) ∧
    (devicesFromEntries fsEnum BACKLIGHT_PATH entriesW).length = 2 :=
  ⟨(enumeration_filters_by_control_file fsEnum BACKLIGHT_PATH entriesW (by decide)).1,
    (enumeration_filters_by_control_file fsEnum BACKLIGHT_PATH entriesW (by decide)).2.1
      "devA" (by decide),
    (enumeration_filters_by_control_file fsEnum BACKLIGHT_PATH entriesW (by decide)).2.2
      "devA" "devB" "devC" (by decide) (by decide) (by decide) (by decide)⟩

theorem parseI32Core_out_of_range (neg : Bool) (ds : List Char) (v : Int)
    (hu : parseIntUnboundedCore neg ds = some v)
    (hout : v < -(2147483648 : Int) ∨ (2147483647 : Int) < v) :
    parseI32Core neg ds = none := by
  unfold parseIntUnboundedCore at hu
  unfold parseI32Core
  cases hn : parseNat ds with
  | none => simp [hn] at hu
  | some n =>
    rw [hn] at hu
    simp only [Option.some.injEq] at hu
    cases neg with
    | false =>
      simp only [Bool.false_eq_true, if_false] at hu ⊢
      have hn2 : ¬ (n ≤ I32_MAX) := by unfold I32_MAX; omega
      simp [hn2]
    | true =>
      simp only [if_true] at hu ⊢
      have hn2 : ¬ (n ≤ I32_MIN_ABS) := by unfold I32_MIN_ABS; omega
      simp [hn2]

theorem parseI32_out_of_range (cs : List Char) (v : Int)
    (hu : parseIntUnbounded cs = some v)
    (hout : v < -(2147483648 : Int) ∨ (2147483647 : Int) < v) :
    parseI32 cs = none :=
  parseI32Core_out_of_range (parseSign cs).1 (parseSign cs).2 v hu hout

/-- Claim C9: the parser is i32-bounded: when the trimmed control-file
content is a well-formed decimal signed integer whose value lies outside
`[-2147483648, 2147483647]`, toggle fails with the Malformed Data error
rather than accepting the value. -/
theorem parse_is_i32_bounded (fs : Fs) (d : Device) (s : String) (v : Int)
    (hr : fs.readToString d.bl_power = .ok s)
    (hu : parseIntUnbounded (trimChars s.data) = some v)
    (hout : v < -(2147483648 : Int) ∨ (2147483647 : Int) < v) :
    Device.toggle fs d = (.error malformedError, fs) := by
  have hnone : parseI32 (trimChars s.data) = none :=
    parseI32_out_of_range (trimChars s.data) v hu hout
  have hread := read_i32_malformed fs d.bl_power s hr hnone
  simp [Device.toggle, hread]

/-- Witness for C9 at the concrete content `"2147483648"`. -/
theorem parse_is_i32_bounded_witness :
    Device.toggle fsBig wDev = (.error malformedError, fsBig) :=
  parse_is_i32_bounded fsBig wDev "2147483648" 2147483648 (by decide) (by decide)
    (Or.inr (by decide))

